import Mathlib

/-!
Shallow embedding of `examples/cpptest/main.cpp` from the sixtyfps repository.

The source file wires three callbacks (`foobar`, `plus_clicked`,
`minus_clicked`) to a single `Hello` UI component instance, then hands
control to `sixtyfps::run`.  The generated component header `hello.h` and
the framework itself are not part of the example source, so the property,
signal and run-loop semantics are modelled from the specification; the
handler bodies and the order of the statements in `main` are translated
directly from the C++ source.
-/

namespace Cpptest

/-- Modelled from the spec: the component exposes "a mutable integer
property `counter` (get/set semantics)".  The concrete C++ type is defined
in the generated `hello.h`, which is absent; the spec gives a plain
integer, so the value is an unbounded `Int`. -/
structure Property where
  value : Int
deriving DecidableEq, Repr

/-- Modelled from the spec: property read with "get with a null/sentinel
argument" abstracting "to a plain getter".  The ignored argument mirrors
the `counter.get(nullptr)` call shape in the source. -/
def Property.get (p : Property) (_ctx : Option Unit) : Int :=
  p.value

/-- Modelled from the spec: property write ("writes back"). -/
def Property.set (_p : Property) (v : Int) : Property :=
  ⟨v⟩

/-- The mutable data of the single `Hello` component instance: just the
`counter` property. -/
structure HelloState where
  counter : Property
deriving DecidableEq, Repr

/-- The observable program state a handler can touch: the single component
instance (`static Hello component` in the source) and the standard-output
lines emitted so far. -/
structure World where
  component : HelloState
  output : List String
deriving DecidableEq, Repr

/-- From the source (lines 7–9): the `foobar` handler prints
"Hello from C++" and touches nothing else. -/
def foobarHandler (w : World) : World :=
  { w with output := w.output ++ ["Hello from C++"] }

/-- From the source (lines 11–14): the `plus_clicked` handler takes a
reference to `component.counter`, reads it, adds 1 and writes back. -/
def plus_clickedHandler (w : World) : World :=
  let counter := w.component.counter
  { w with component := { counter := counter.set (counter.get none + 1) } }

/-- From the source (lines 16–19): the `minus_clicked` handler takes a
reference to `component.counter`, reads it, subtracts 1 and writes back. -/
def minus_clickedHandler (w : World) : World :=
  let counter := w.component.counter
  { w with component := { counter := counter.set (counter.get none - 1) } }

/-- A handler is a zero-argument callable acting on the program state. -/
def Handler : Type :=
  World → World

/-- Modelled from the spec: a named signal slot "accepting one handler".
The slot is empty until a handler is registered. -/
structure Signal where
  handler : Option Handler

/-- Modelled from the spec: `attach` / `set_handler` "registers `handler`
to be invoked whenever the named signal fires.  Overwrites any previously
set handler for that signal (single-slot semantics, not
multi-subscriber)". -/
def Signal.set_handler (_sig : Signal) (h : Handler) : Signal :=
  ⟨some h⟩

/-- Modelled from the spec: firing a signal invokes the attached handler
synchronously; a signal with no handler attached has no effect. -/
def Signal.emit (sig : Signal) (w : World) : World :=
  match sig.handler with
  | some h => h w
  | none => w

/-- The three signal slots exposed by the `Hello` component. -/
structure Slots where
  foobar : Signal
  plus_clicked : Signal
  minus_clicked : Signal

/-- All slots start empty, before `main` registers anything. -/
def Slots.init : Slots :=
  ⟨⟨none⟩, ⟨none⟩, ⟨none⟩⟩

/-- The three `set_handler` calls of `main`, in source order. -/
def mainSlots : Slots :=
  let s0 := Slots.init
  let s1 := { s0 with foobar := s0.foobar.set_handler foobarHandler }
  let s2 := { s1 with plus_clicked := s1.plus_clicked.set_handler plus_clickedHandler }
  let s3 := { s2 with minus_clicked := s2.minus_clicked.set_handler minus_clickedHandler }
  s3

/-- The observable steps `main` performs, used to state ordering facts. -/
inductive Event where
  | create_component : Event
  | set_handler : String → Event
  | run_loop : Event
deriving DecidableEq, Repr

/-- The statements of `main` in source order: `static Hello component;`,
the three `set_handler` calls, then `sixtyfps::run(&component);`. -/
def mainTrace : List Event :=
  [Event.create_component,
   Event.set_handler "foobar",
   Event.set_handler "plus_clicked",
   Event.set_handler "minus_clicked",
   Event.run_loop]

/-- Modelled from the spec: `sixtyfps::run` "transfers control to the UI
framework's event loop, blocking the calling thread until the loop
terminates", and on termination the loop produces some result value
("whatever the UI framework's run loop returns/propagates on window
close").  The loop's behaviour is opaque, so its terminal state and
result are parameters. -/
def sixtyfpsRun (loopResult : Int) (w : World) : World × Int :=
  (w, loopResult)

/-- From the source (lines 21–23): `main` calls `sixtyfps::run(&component)`
without binding its result, and has no `return` statement, so control
flows off the end of `main`, which in C++ returns 0. -/
def cppMain (loopResult : Int) (w : World) : World × Int :=
  let afterRun := (sixtyfpsRun loopResult w).1
  (afterRun, 0)

end Cpptest

open Cpptest

/-- Claim C1: for every initial counter value `c`, one invocation of the
registered `plus_clicked` handler reads the counter, adds exactly 1 and
writes back, leaving the counter equal to `c + 1` (and the output
untouched). -/
theorem plus_clicked_increments (w : World) :
    (mainSlots.plus_clicked.emit w).component.counter.value =
      w.component.counter.value + 1 ∧
    (mainSlots.plus_clicked.emit w).output = w.output := by
  constructor <;> rfl

/-- Claim C2: for every initial counter value `c`, one invocation of the
registered `minus_clicked` handler reads the counter, subtracts exactly 1
and writes back, leaving the counter equal to `c - 1` (and the output
untouched). -/
theorem minus_clicked_decrements (w : World) :
    (mainSlots.minus_clicked.emit w).component.counter.value =
      w.component.counter.value - 1 ∧
    (mainSlots.minus_clicked.emit w).output = w.output := by
  constructor <;> rfl

/-- Claim C3: firing `plus_clicked` then `minus_clicked`, or
`minus_clicked` then `plus_clicked`, restores the entire program state:
the two registered handlers are mutual inverses. -/
theorem plus_minus_mutual_inverses (w : World) :
    mainSlots.minus_clicked.emit (mainSlots.plus_clicked.emit w) = w ∧
    mainSlots.plus_clicked.emit (mainSlots.minus_clicked.emit w) = w := by
  obtain ⟨⟨⟨c⟩⟩, out⟩ := w
  constructor <;>
    simp [mainSlots, Slots.init, Signal.set_handler, Signal.emit,
      plus_clickedHandler, minus_clickedHandler, Property.set, Property.get]

/-- Claim C4: a single invocation of the registered `foobar` handler
appends exactly one output line and leaves the component (hence the
`counter` property) unchanged. -/
theorem foobar_one_effect_no_state_change (w : World) :
    (mainSlots.foobar.emit w).output = w.output ++ ["Hello from C++"] ∧
    (mainSlots.foobar.emit w).output.length = w.output.length + 1 ∧
    (mainSlots.foobar.emit w).component = w.component := by
  refine ⟨rfl, ?_, rfl⟩
  simp [mainSlots, Slots.init, Signal.set_handler, Signal.emit, foobarHandler]

/-- Claim C5: starting from `counter = 0`, firing `plus_clicked` three
times leaves `counter = 3`, and then firing `minus_clicked` once leaves
`counter = 2`. -/
theorem scenario_three_plus_one_minus (w : World)
    (h : w.component.counter.value = 0) :
    (mainSlots.plus_clicked.emit (mainSlots.plus_clicked.emit
      (mainSlots.plus_clicked.emit w))).component.counter.value = 3 ∧
    (mainSlots.minus_clicked.emit (mainSlots.plus_clicked.emit
      (mainSlots.plus_clicked.emit
        (mainSlots.plus_clicked.emit w)))).component.counter.value = 2 := by
  obtain ⟨⟨⟨c⟩⟩, out⟩ := w
  simp only [HelloState.counter] at h
  constructor <;>
    simp [mainSlots, Slots.init, Signal.set_handler, Signal.emit,
      plus_clickedHandler, minus_clickedHandler, Property.set, Property.get, h]

/-- Witness for C5 at the concrete initial state `counter = 0`, no output. -/
theorem scenario_three_plus_one_minus_witness :
    (mainSlots.plus_clicked.emit (mainSlots.plus_clicked.emit
      (mainSlots.plus_clicked.emit ⟨⟨⟨0⟩⟩, []⟩))).component.counter.value = 3 ∧
    (mainSlots.minus_clicked.emit (mainSlots.plus_clicked.emit
      (mainSlots.plus_clicked.emit
        (mainSlots.plus_clicked.emit ⟨⟨⟨0⟩⟩, []⟩)))).component.counter.value = 2 :=
  scenario_three_plus_one_minus ⟨⟨⟨0⟩⟩, []⟩ rfl

/-- Counterexample to claim C6 as stated: `main` does not propagate the
run loop's result.  With the loop producing result 1 from the concrete
initial state, the exit code of `main` is 0, not 1. -/
theorem main_exit_code_not_propagated :
    (cppMain 1 ⟨⟨⟨0⟩⟩, []⟩).2 = 0 ∧ (cppMain 1 ⟨⟨⟨0⟩⟩, []⟩).2 ≠ 1 := by
  constructor <;> decide

/-- Claim C6 amended: `main` discards whatever value `sixtyfps::run`
produces — it has no `return` statement, so control flows off the end of
`main` and the process exit code is 0 for every loop result. -/
theorem main_exit_code_always_zero (loopResult : Int) (w : World) :
    (cppMain loopResult w).2 = 0 :=
  rfl

/-- Claim C7: in `main`'s execution order the component is created first,
each of the three `set_handler` registrations happens before the run loop
starts, and the run-loop call is the last step, with no program logic
after it. -/
theorem main_ordering :
    mainTrace.head? = some Event.create_component ∧
    mainTrace.getLast? = some Event.run_loop ∧
    mainTrace.count Event.run_loop = 1 ∧
    (mainTrace.takeWhile (fun e => e ≠ Event.run_loop)).count
      (Event.set_handler "foobar") = 1 ∧
    (mainTrace.takeWhile (fun e => e ≠ Event.run_loop)).count
      (Event.set_handler "plus_clicked") = 1 ∧
    (mainTrace.takeWhile (fun e => e ≠ Event.run_loop)).count
      (Event.set_handler "minus_clicked") = 1 := by
  decide

/-- Claim C8: registering a handler on a signal that already has one
replaces the prior handler; afterwards every firing of the signal invokes
only the new handler, so the prior one never fires again. -/
theorem set_handler_single_slot (sig : Signal) (h₁ h₂ : Handler) (w : World) :
    ((sig.set_handler h₁).set_handler h₂).handler = some h₂ ∧
    Signal.emit ((sig.set_handler h₁).set_handler h₂) w = h₂ w := by
  constructor <;> rfl

/-- Claim C9: `main` creates exactly one component instance, and each of
the three registered handlers acts on that same shared state: the counter
handlers read and write the one shared `counter` property (touching
nothing else), and `foobar` leaves the component untouched. -/
theorem single_instance_shared_counter (w : World) :
    mainTrace.count Event.create_component = 1 ∧
    plus_clickedHandler w =
      { w with component := ⟨⟨w.component.counter.value + 1⟩⟩ } ∧
    minus_clickedHandler w =
      { w with component := ⟨⟨w.component.counter.value - 1⟩⟩ } ∧
    (foobarHandler w).component = w.component := by
  refine ⟨by decide, rfl, rfl, rfl⟩
